import Mathlib

/-!
Verification of the PharmaGuard pharmacogenomic risk-assessment platform
(repository Rift2k26).

The repository ships a React front end (under `frontend/src`) and documents a
FastAPI back end whose risk engine is specified in `spec.md`.  The back-end
sources (`risk_engine.py`, `main.py`, `generate_result_fn.py`) are not part of
the checked-in tree, so the engine components (Diplotype Resolver, Guideline
Matcher, Risk Classifier, Enrichment Orchestrator, Pipeline Controller) are
modelled here directly from the specification text; every such definition is
marked `Modelled from the spec:` in its doc comment.  The front-end functions
(`riskLabelToTier`, `derivePrediction`, `validateVCF`/`handleFile`) are
translated from the JavaScript source files.

String operations mirror the JavaScript semantics: `toLowerCase`, `includes`,
`startsWith`, `endsWith` are modelled on the underlying character lists so that
they stay kernel-computable.
-/

/-- Lower-case a string character by character, mirroring JavaScript
`String.prototype.toLowerCase` on the ASCII alphabet. -/
def jsToLower (s : String) : String :=
  String.mk (s.data.map Char.toLower)

/-- JavaScript `s.includes(pat)`: `pat` occurs as a contiguous substring
of `s`. -/
def jsIncludes (s pat : String) : Bool :=
  decide (pat.data <:+: s.data)

/-- JavaScript `s.startsWith(pat)`. -/
def jsStartsWith (s pat : String) : Bool :=
  decide (pat.data <+: s.data)

/-- JavaScript `s.endsWith(pat)`. -/
def jsEndsWith (s pat : String) : Bool :=
  decide (pat.data <:+ s.data)

namespace RiskEngine

/-- Modelled from the spec: metabolizer phenotype categories of a
`PhenotypeResult` (spec section 3). -/
inductive Phenotype where
  | NormalMetabolizer
  | IntermediateMetabolizer
  | PoorMetabolizer
  | RapidMetabolizer
  | UltrarapidMetabolizer
  | Indeterminate
  | Unknown
deriving DecidableEq, Repr

/-- Modelled from the spec: evidence classification of a `GuidelineRecord`
(spec section 3). -/
inductive Evidence where
  | Strong
  | Moderate
  | NoRecommendation
deriving DecidableEq, Repr

/-- Modelled from the spec: risk labels of a `RiskVerdict` (spec section 3). -/
inductive RiskLabel where
  | Safe
  | AdjustDosage
  | Toxic
  | Ineffective
  | Unknown
deriving DecidableEq, Repr

/-- Modelled from the spec: severity levels of a `RiskVerdict`
(spec section 3): none, low/moderate, high, critical. -/
inductive Severity where
  | none
  | lowModerate
  | high
  | critical
deriving DecidableEq, Repr

/-- Modelled from the spec: a matched guideline recommendation
(spec section 3).  `phenotype` is the phenotype the record is keyed to;
`Option.none` is the wildcard "applies-to-all" key. -/
structure GuidelineRecord where
  drug : String
  gene : String
  phenotype : Option Phenotype
  guidelineName : String
  recommendation : String
  evidence : Evidence
deriving DecidableEq, Repr

/-- Modelled from the spec: the classifier's output (spec section 3).
Confidence is a rational in [0,1]. -/
structure RiskVerdict where
  drug : String
  label : RiskLabel
  severity : Severity
  confidence : ℚ
deriving DecidableEq, Repr

/-- Modelled from the spec: the classifier's case-insensitive substring test
against the recommendation text (spec section 4.3). -/
def containsCI (text kw : String) : Bool :=
  jsIncludes (jsToLower text) (jsToLower kw)

/-- Modelled from the spec: confidence mapping from evidence classification,
Strong to 1.0, Moderate to 0.75, NoRecommendation to 0.0 (spec section 4.3). -/
def confidenceOf : Evidence → ℚ
  | .Strong => 1
  | .Moderate => 3 / 4
  | .NoRecommendation => 0

/-- Modelled from the spec: `classify(drug, GuidelineRecord|NotFound)`
(spec section 4.3) — ordered keyword rules over the recommendation text,
first match wins.  `NotFound` is the `Option.none` argument; the codeine +
PoorMetabolizer special case yields `Ineffective` instead of `Toxic`. -/
def classify (drug : String) (matched : Option GuidelineRecord) : RiskVerdict :=
  match matched with
  | Option.none => ⟨drug, .Unknown, .none, 0⟩
  | Option.some r =>
    let conf := confidenceOf r.evidence
    if containsCI r.recommendation "avoid" ∨ containsCI r.recommendation "contraindicated" then
      if drug = "codeine" ∧ r.phenotype = Option.some .PoorMetabolizer then
        ⟨drug, .Ineffective, .high, conf⟩
      else
        ⟨drug, .Toxic, .critical, conf⟩
    else if containsCI r.recommendation "alternative statin" then
      ⟨drug, .Toxic, .high, conf⟩
    else if containsCI r.recommendation "reduce dose" ∨ containsCI r.recommendation "lower dose" then
      ⟨drug, .AdjustDosage, .lowModerate, conf⟩
    else if containsCI r.recommendation "standard" ∨ containsCI r.recommendation "label recommended" then
      ⟨drug, .Safe, .none, conf⟩
    else
      ⟨drug, .Unknown, .none, conf⟩

/-- The classifier's keyword rules written as an explicit ordered list of
(text predicate, result) pairs, following the claim's reading of
spec section 4.3.  Each result may depend on the drug and the matched
record (rule 2's codeine special case). -/
def classifyRules :
    List ((String → Bool) × (String → GuidelineRecord → RiskLabel × Severity)) :=
  [ (fun t => containsCI t "avoid" || containsCI t "contraindicated",
     fun drug r =>
       if drug = "codeine" ∧ r.phenotype = Option.some .PoorMetabolizer then
         (.Ineffective, .high)
       else
         (.Toxic, .critical)),
    (fun t => containsCI t "alternative statin",
     fun _ _ => (.Toxic, .high)),
    (fun t => containsCI t "reduce dose" || containsCI t "lower dose",
     fun _ _ => (.AdjustDosage, .lowModerate)),
    (fun t => containsCI t "standard" || containsCI t "label recommended",
     fun _ _ => (.Safe, .none)) ]

/-- First-match-wins evaluation of an ordered rule list against a record's
recommendation text; when no rule matches, the result is
(`Unknown`, severity none) as in rule 6 of spec section 4.3. -/
def firstMatch (drug : String) (r : GuidelineRecord) :
    List ((String → Bool) × (String → GuidelineRecord → RiskLabel × Severity)) →
    RiskLabel × Severity
  | [] => (.Unknown, .none)
  | (p, res) :: rest =>
    if p r.recommendation then res drug r else firstMatch drug r rest

/-- Modelled from the spec: the resolver's phenotype result (spec section 3). -/
structure PhenotypeResult where
  gene : String
  diplotype : String
  phenotype : Phenotype
deriving DecidableEq, Repr

/-- Whitespace test used for the resolver's diplotype trimming. -/
def isWS (c : Char) : Bool :=
  c = ' ' ∨ c = '\t' ∨ c = '\n' ∨ c = '\r'

/-- Trim leading and trailing whitespace from a string. -/
def trimWS (s : String) : String :=
  String.mk (((s.data.dropWhile isWS).reverse.dropWhile isWS).reverse)

/-- Modelled from the spec: `resolve(gene, diplotypeString)` (spec
section 4.1).  The reference-table snapshot is an explicit read-only
argument: per gene a list of (diplotype, phenotype) pairs.  Lookup is an
exact string match after trimming whitespace; a missing gene table or a
missing diplotype key yields phenotype `Unknown`. -/
def resolve (tables : List (String × List (String × Phenotype)))
    (gene diplotype : String) : PhenotypeResult :=
  match tables.lookup gene with
  | Option.none => ⟨gene, diplotype, .Unknown⟩
  | Option.some tbl =>
    match tbl.lookup (trimWS diplotype) with
    | Option.none => ⟨gene, diplotype, .Unknown⟩
    | Option.some ph => ⟨gene, diplotype, ph⟩

/-- Modelled from the spec: provenance tags of an `EnrichedExplanation`
(spec section 3). -/
inductive Provenance where
  | scraped
  | llm_fallback_no_url
  | llm_fallback_scrape_failed
deriving DecidableEq, Repr

/-- Modelled from the spec: the orchestrator's output (spec sections 3 and
4.4): the explanation summary, the live-source update note, and the
provenance tag of the path that actually succeeded. -/
structure EnrichedExplanation where
  summary : String
  cpicUpdate : String
  source : Provenance
deriving DecidableEq, Repr

/-- Modelled from the spec: the generic templated sentence the orchestrator
substitutes when the external generation capability fails
(spec section 4.4). -/
def genericTemplate : String :=
  "No pharmacogenomic explanation could be generated; please consult the clinical guideline directly."

/-- Modelled from the spec: the always-available generated-explanation path
(spec section 4.4).  The external generation capability is an input that may
fail (`Option.none`) or return text; a failed or empty generation is replaced
by the generic templated sentence rather than left empty. -/
def generatedSummary (llm : Option String) : String :=
  match llm with
  | Option.none => genericTemplate
  | Option.some s => if s = "" then genericTemplate else s

/-- Modelled from the spec: the update note recorded when no live-source note
was obtained. -/
def noUpdateNote : String :=
  "No live guideline update available."

/-- Modelled from the spec: `enrich` (spec section 4.4).  `url` is the
record's optional reference URL; `fetch` is the external live-source
capability (returns the extracted note or fails); `llm` is the external
generation capability's output.  The fallback chain is attempted in order and
the provenance tag reflects the path that actually succeeded. -/
def enrich (url : Option String) (fetch : String → Option String)
    (llm : Option String) : EnrichedExplanation :=
  match url with
  | Option.none => ⟨generatedSummary llm, noUpdateNote, .llm_fallback_no_url⟩
  | Option.some u =>
    match fetch u with
    | Option.some note => ⟨generatedSummary llm, note, .scraped⟩
    | Option.none => ⟨generatedSummary llm, noUpdateNote, .llm_fallback_scrape_failed⟩

/-- Modelled from the spec: the pipeline's per-drug aggregate output
(spec sections 3 and 4.5), reduced to the fields the controller's failure
envelope constrains: the drug, the verdict and the parse-success flag. -/
structure PerDrugOutput where
  drug : String
  verdict : RiskVerdict
  vcf_parsing_success : Bool
deriving DecidableEq, Repr

/-- Modelled from the spec: the entry emitted for a drug whose per-drug
pipeline failed — risk label `Unknown` and
`quality_metrics.vcf_parsing_success = false` (spec section 4.5). -/
def fallbackOutput (drug : String) : PerDrugOutput :=
  ⟨drug, ⟨drug, .Unknown, .none, 0⟩, false⟩

/-- Modelled from the spec: the Pipeline Controller `run` (spec section 4.5).
`step` is the per-drug pipeline (stages 4.1 to 4.4 applied to the annotator
output), which may fail with an error; the controller catches each failure at
its boundary and substitutes the fallback entry for that drug only, keeping
the output in the order of the requested drug list. -/
def run (step : String → Except String PerDrugOutput)
    (drugs : List String) : List PerDrugOutput :=
  drugs.map fun d =>
    match step d with
    | Except.ok out => out
    | Except.error _ => fallbackOutput d

end RiskEngine

namespace Frontend

/-- The three risk tiers of the front-end risk summary
(`RiskSummary.jsx`, `DrugDetailAccordion.jsx`). -/
inductive Tier where
  | avoid
  | caution
  | routine
deriving DecidableEq, Repr

/-- From `DrugDetailAccordion.jsx` lines 6-11 (the identical copy lives in
`RiskSummary.jsx`): map the backend `risk_label` to a 3-tier classification.
A missing label (`Option.none`, the JavaScript `label || ''` default) is
lower-cased to the empty string. -/
def riskLabelToTier (label : Option String) : Tier :=
  let l := jsToLower (label.getD "")
  if l = "toxic" ∨ l = "ineffective" then .avoid
  else if l = "adjust dosage" ∨ l = "unknown" then .caution
  else .routine

/-- The drugs that `RiskSummary.jsx` places on the card of tier `t`, given
the per-drug API results as (drug, risk_label) pairs. -/
def tierDrugs (results : List (String × Option String)) (t : Tier) : List String :=
  (results.filter fun r => decide (riskLabelToTier r.2 = t)).map Prod.fst

/-- The four-valued prediction indicator of `PhenotypeGrid.jsx`. -/
inductive Indicator where
  | normal
  | increased
  | decreased
  | na
deriving DecidableEq, Repr

/-- The fields of a per-drug API result that `derivePrediction` reads:
`result.risk_assessment?.risk_label` and
`result.pharmacogenomic_profile?.phenotype`, each possibly absent. -/
structure ApiResult where
  risk_label : Option String
  phenotype : Option String
deriving DecidableEq, Repr

/-- The four-axis prediction row of `PhenotypeGrid.jsx`. -/
structure Prediction where
  toxicity : Indicator
  dosage : Indicator
  efficacy : Indicator
  metabolism : Indicator
deriving DecidableEq, Repr

/-- From `PhenotypeGrid.jsx` lines 15-40: derive the phenotype prediction for
one drug from the backend result.  The risk label and phenotype strings are
lower-cased first; the JavaScript falsiness test `!phenotype` on the
lower-cased, defaulted string is equality with the empty string. -/
def derivePrediction (r : ApiResult) : Prediction :=
  let riskLabel := jsToLower (r.risk_label.getD "")
  let phenotype := jsToLower (r.phenotype.getD "")
  let toxicity := if riskLabel = "toxic" then Indicator.increased else Indicator.normal
  let dosage := if riskLabel = "adjust dosage" then Indicator.decreased else Indicator.normal
  let efficacy := if riskLabel = "ineffective" then Indicator.decreased else Indicator.normal
  let metabolism :=
    if jsIncludes phenotype "poor" ∨ phenotype = "pm" then Indicator.decreased
    else if jsIncludes phenotype "intermediate" ∨ phenotype = "im" then Indicator.decreased
    else if jsIncludes phenotype "rapid" ∨ phenotype = "rm" then Indicator.increased
    else if jsIncludes phenotype "ultrarapid" ∨ phenotype = "urm" then Indicator.increased
    else if phenotype = "unknown" ∨ phenotype = "indeterminate" ∨ phenotype = "" then Indicator.na
    else Indicator.normal
  ⟨toxicity, dosage, efficacy, metabolism⟩

/-- The claim's description of `derivePrediction`, written as its own
function for comparison: toxicity increased exactly on label "toxic", dosage
decreased exactly on "adjust dosage", efficacy decreased exactly on
"ineffective", and metabolism decided by the claim's case list in order —
decreased when the phenotype contains "poor" or "intermediate" or equals
"pm"/"im"; increased when it contains "rapid" (which covers ultrarapid) or
equals "rm"/"urm"; n/a when it equals "unknown" or "indeterminate" or is
empty; normal otherwise. -/
def derivePredictionSpec (r : ApiResult) : Prediction :=
  let riskLabel := jsToLower (r.risk_label.getD "")
  let ph := jsToLower (r.phenotype.getD "")
  { toxicity := if riskLabel = "toxic" then Indicator.increased else Indicator.normal
    dosage := if riskLabel = "adjust dosage" then Indicator.decreased else Indicator.normal
    efficacy := if riskLabel = "ineffective" then Indicator.decreased else Indicator.normal
    metabolism :=
      if jsIncludes ph "poor" ∨ jsIncludes ph "intermediate" ∨ ph = "pm" ∨ ph = "im" then
        Indicator.decreased
      else if jsIncludes ph "rapid" ∨ ph = "rm" ∨ ph = "urm" then
        Indicator.increased
      else if ph = "unknown" ∨ ph = "indeterminate" ∨ ph = "" then
        Indicator.na
      else
        Indicator.normal }

/-- A file as seen by `FileUpload.jsx`: its name, its reported byte size, and
its text content. -/
structure UploadFile where
  name : String
  size : Nat
  content : String
deriving DecidableEq, Repr

/-- From `FileUpload.jsx` line 24: the extension check
`f.name.toLowerCase().endsWith('.vcf')`. -/
def extensionOk (f : UploadFile) : Bool :=
  jsEndsWith (jsToLower f.name) ".vcf"

/-- From `FileUpload.jsx` lines 36-50: the header check on the first 1024
characters read from the file:
`header.startsWith('##fileformat=VCF')`. -/
def headerOk (f : UploadFile) : Bool :=
  jsStartsWith (String.mk (f.content.data.take 1024)) "##fileformat=VCF"

/-- Error message of `FileUpload.jsx` line 25. -/
def extErrorMsg : String :=
  "Invalid file type. Please upload a file with a .vcf extension."

/-- Warning message of `FileUpload.jsx` line 31. -/
def sizeWarnMsg : String :=
  "This file is very large (>50 MB). Processing may take longer than expected."

/-- Error message of `FileUpload.jsx` line 40. -/
def headerErrorMsg : String :=
  "This doesn\x27t appear to be a valid VCF file. Expected header: ##fileformat=VCF"

/-- From `FileUpload.jsx` lines 22-52: `validateVCF` returns the list of
`onError` messages emitted, in order, together with its boolean verdict.
The extension check fails first and returns immediately; the >50 MB size
check only warns and continues; the header check decides validity. -/
def validateVCF (f : UploadFile) : List String × Bool :=
  if extensionOk f = false then
    ([extErrorMsg], false)
  else
    let warnings := if 50 * 1024 * 1024 < f.size then [sizeWarnMsg] else []
    if headerOk f = false then
      (warnings ++ [headerErrorMsg], false)
    else
      (warnings, true)

/-- Whether a character list is a data line for the variant estimate of
`FileUpload.jsx` line 64: non-empty and not starting with '#'. -/
def isDataLine (l : List Char) : Bool :=
  match l with
  | [] => false
  | c :: _ => decide (c ≠ '#')

/-- Split a character list at newline characters, mirroring the JavaScript
`text.split('\n')`. -/
def splitLines : List Char → List (List Char)
  | [] => [[]]
  | c :: rest =>
    match splitLines rest with
    | [] => [[]]
    | l :: ls => if c = '\n' then [] :: l :: ls else (c :: l) :: ls

/-- From `FileUpload.jsx` lines 59-73: estimate the variant count as the
number of non-empty, non-'#' lines among the first 512 KB of the file. -/
def countDataLines (content : String) : Nat :=
  ((splitLines (content.data.take (512 * 1024))).filter isDataLine).length

/-- The file object passed to `onFileAccept` in `FileUpload.jsx`
lines 65-71. -/
structure AcceptedFile where
  raw : UploadFile
  name : String
  size : Nat
  variantEstimate : Nat
  headerValid : Bool
deriving DecidableEq, Repr

/-- From `FileUpload.jsx` lines 54-75: `handleFile` validates the file and,
only when validation succeeded, calls `onFileAccept` with the accepted-file
object.  The result pairs the emitted error/warning messages with the
accepted file, if any. -/
def handleFile (f : UploadFile) : List String × Option AcceptedFile :=
  let v := validateVCF f
  if v.2 then
    (v.1, Option.some
      { raw := f
        name := f.name
        size := f.size
        variantEstimate := countDataLines f.content
        headerValid := true })
  else
    (v.1, Option.none)

end Frontend

namespace RiskEngine

/-- A codeine guideline record keyed to PoorMetabolizer whose recommendation
contains "avoid", used to exercise the classifier's special case. -/
def recCodeinePM : GuidelineRecord :=
  { drug := "codeine"
    gene := "CYP2D6"
    phenotype := Option.some .PoorMetabolizer
    guidelineName := "CPIC Guideline for Codeine and CYP2D6"
    recommendation := "Avoid codeine use due to lack of efficacy."
    evidence := .Strong }

/-- A record with Strong evidence whose text triggers the avoid rule. -/
def recAvoidStrong : GuidelineRecord :=
  { drug := "clopidogrel"
    gene := "CYP2C19"
    phenotype := Option.some .PoorMetabolizer
    guidelineName := "CPIC Guideline for Clopidogrel and CYP2C19"
    recommendation := "Cannot activate the prodrug; avoid use."
    evidence := .Strong }

/-- A record with Strong evidence whose text triggers the safe rule. -/
def recStandardStrong : GuidelineRecord :=
  { drug := "clopidogrel"
    gene := "CYP2C19"
    phenotype := Option.some .NormalMetabolizer
    guidelineName := "CPIC Guideline for Clopidogrel and CYP2C19"
    recommendation := "Use standard dosing per the label recommended schedule."
    evidence := .Strong }

/-- A record whose text contains both "avoid" and "reduce dose", exercising
the rule-ordering edge case of spec section 4.3. -/
def recBothKeywords : GuidelineRecord :=
  { drug := "warfarin"
    gene := "CYP2C9"
    phenotype := Option.some .IntermediateMetabolizer
    guidelineName := "CPIC Guideline for Warfarin and CYP2C9"
    recommendation := "Avoid initiation unless you reduce dose substantially."
    evidence := .Moderate }

/-- An example reference-table snapshot holding a single CYP2C9 table. -/
def tablesExample : List (String × List (String × Phenotype)) :=
  [("CYP2C9", [("*1/*1", .NormalMetabolizer), ("*1/*2", .IntermediateMetabolizer)])]

/-- An example per-drug pipeline step that fails on the unsupported drug name
"xyz" and succeeds on everything else. -/
def stepExample : String → Except String PerDrugOutput :=
  fun d =>
    if d = "xyz" then Except.error "unsupported drug"
    else Except.ok ⟨d, ⟨d, .Safe, .none, 1⟩, true⟩

/-- A live-source capability that always fails. -/
def fetchFailing : String → Option String :=
  fun _ => Option.none

/-- A live-source capability that always returns a fixed note. -/
def fetchFixed : String → Option String :=
  fun _ => Option.some "No significant updates since last publication."

end RiskEngine

namespace Frontend

/-- A concrete upload just above the 50 MB warning threshold, with a valid
extension (upper-case, as the check is case-insensitive) and a valid VCF
header. -/
def sampleBigVCF : UploadFile :=
  { name := "patient.VCF"
    size := 50 * 1024 * 1024 + 1
    content := "##fileformat=VCFv4.2\n#CHROM\tPOS\tID\n1\t12345\trs1799853\n" }

/-- A concrete upload with a wrong extension. -/
def sampleTxtFile : UploadFile :=
  { name := "notes.txt"
    size := 100
    content := "##fileformat=VCFv4.2\n" }

/-- A concrete upload with a `.vcf` name but a non-VCF header. -/
def sampleBadHeader : UploadFile :=
  { name := "patient.vcf"
    size := 100
    content := "CHROM POS ID\n" }

end Frontend

open RiskEngine Frontend

/-- Substring containment is monotone: if `pat₁` occurs inside `pat₂`, then
any string that includes `pat₂` also includes `pat₁`. -/
theorem jsIncludes_mono {pat₁ pat₂ : String} (s : String)
    (h₁ : pat₁.data <:+: pat₂.data) (h₂ : jsIncludes s pat₂ = true) :
    jsIncludes s pat₁ = true := by
  simp only [jsIncludes, decide_eq_true_iff] at h₂ ⊢
  exact h₁.trans h₂

/-- The classifier's confidence always comes from the record's evidence
classification, whichever keyword rule fired. -/
theorem classify_confidence_aux (drug : String) (r : GuidelineRecord) :
    (classify drug (Option.some r)).confidence = confidenceOf r.evidence := by
  simp only [classify]
  split_ifs <;> rfl

/-- C1: for every matched guideline record whose recommendation text contains
"avoid" or "contraindicated", if the drug is codeine and the phenotype is
PoorMetabolizer then `classify` returns risk label `Ineffective` with
severity high, and never `Toxic`. -/
theorem classify_codeine_pm_ineffective :
    ∀ (drug : String) (r : GuidelineRecord),
      (containsCI r.recommendation "avoid" = true ∨
        containsCI r.recommendation "contraindicated" = true) →
      drug = "codeine" →
      r.phenotype = Option.some Phenotype.PoorMetabolizer →
      (classify drug (Option.some r)).label = RiskLabel.Ineffective ∧
      (classify drug (Option.some r)).severity = Severity.high ∧
      (classify drug (Option.some r)).label ≠ RiskLabel.Toxic := by
  intro drug r h hd hp
  subst hd
  rcases h with h | h <;> simp [classify, h, hp]

/-- Witness for C1 at a concrete codeine record whose text contains
"Avoid". -/
theorem classify_codeine_pm_ineffective_witness :
    (classify "codeine" (Option.some recCodeinePM)).label = RiskLabel.Ineffective ∧
    (classify "codeine" (Option.some recCodeinePM)).severity = Severity.high ∧
    (classify "codeine" (Option.some recCodeinePM)).label ≠ RiskLabel.Toxic :=
  classify_codeine_pm_ineffective "codeine" recCodeinePM (Or.inl (by decide)) rfl rfl

/-- C2: the confidence score is a function of the evidence classification
alone — Strong to 1.0, Moderate to 0.75, NoRecommendation or NotFound to
0.0 — and is unchanged when the recommendation text (and hence the fired
rule and risk label) varies while the evidence stays fixed. -/
theorem classify_confidence_from_evidence :
    (confidenceOf Evidence.Strong = 1 ∧ confidenceOf Evidence.Moderate = 3 / 4 ∧
      confidenceOf Evidence.NoRecommendation = 0) ∧
    (∀ (drug : String) (r : GuidelineRecord),
      (classify drug (Option.some r)).confidence = confidenceOf r.evidence) ∧
    (∀ drug : String, (classify drug Option.none).confidence = 0) ∧
    (∀ (drug₁ drug₂ : String) (r₁ r₂ : GuidelineRecord),
      r₁.evidence = r₂.evidence →
      (classify drug₁ (Option.some r₁)).confidence =
        (classify drug₂ (Option.some r₂)).confidence) := by
  refine ⟨⟨rfl, rfl, rfl⟩, classify_confidence_aux, fun _ => rfl, ?_⟩
  intro drug₁ drug₂ r₁ r₂ h
  rw [classify_confidence_aux, classify_confidence_aux, h]

/-- Witness for C2: two records with the same Strong evidence but texts that
fire different rules (avoid vs. standard) get the same confidence. -/
theorem classify_confidence_from_evidence_witness :
    (classify "clopidogrel" (Option.some recAvoidStrong)).confidence =
      (classify "clopidogrel" (Option.some recStandardStrong)).confidence :=
  classify_confidence_from_evidence.2.2.2 "clopidogrel" "clopidogrel"
    recAvoidStrong recStandardStrong rfl

/-- C3: when the matcher returns NotFound (the `Option.none` argument —
a value, not an exception, since `classify` is total over it), `classify`
returns risk label `Unknown` with confidence 0.0 and severity none. -/
theorem classify_notfound_unknown :
    ∀ drug : String,
      classify drug Option.none =
        { drug := drug, label := RiskLabel.Unknown,
          severity := Severity.none, confidence := 0 } :=
  fun _ => rfl

/-- C4: the classifier is first-match-wins evaluation of its ordered,
case-insensitive keyword rule list; in particular a text containing both
"avoid" and "reduce dose" fires rule 2 (Toxic, or Ineffective in the
codeine special case) and never rule 4 (AdjustDosage). -/
theorem classify_rule_order_first_match :
    (∀ (drug : String) (r : GuidelineRecord),
      classify drug (Option.some r) =
        { drug := drug
          label := (firstMatch drug r classifyRules).1
          severity := (firstMatch drug r classifyRules).2
          confidence := confidenceOf r.evidence }) ∧
    (∀ (drug : String) (r : GuidelineRecord),
      containsCI r.recommendation "avoid" = true →
      containsCI r.recommendation "reduce dose" = true →
      (classify drug (Option.some r)).label ≠ RiskLabel.AdjustDosage ∧
      ((classify drug (Option.some r)).label = RiskLabel.Toxic ∨
        (classify drug (Option.some r)).label = RiskLabel.Ineffective)) := by
  constructor
  · intro drug r
    simp only [classify, classifyRules, firstMatch]
    split_ifs <;> simp_all
  · intro drug r ha hr
    simp only [classify]
    rw [if_pos (Or.inl (by simp [ha]))]
    by_cases hc : drug = "codeine" ∧ r.phenotype = Option.some Phenotype.PoorMetabolizer
    · rw [if_pos hc]
      exact ⟨by simp, Or.inr rfl⟩
    · rw [if_neg hc]
      exact ⟨by simp, Or.inl rfl⟩

/-- Witness for C4 at a concrete record whose text contains both "avoid"
and "reduce dose". -/
theorem classify_rule_order_first_match_witness :
    (classify "warfarin" (Option.some recBothKeywords)).label ≠ RiskLabel.AdjustDosage ∧
    ((classify "warfarin" (Option.some recBothKeywords)).label = RiskLabel.Toxic ∨
      (classify "warfarin" (Option.some recBothKeywords)).label = RiskLabel.Ineffective) :=
  classify_rule_order_first_match.2 "warfarin" recBothKeywords (by decide) (by decide)

/-- C5: a gene with no reference table, or a diplotype that is not a key in
the gene's table (after whitespace trimming), resolves to phenotype
`Unknown`; `resolve` is a total function, so the Unknown result is a value,
never an exception. -/
theorem resolve_miss_unknown :
    ∀ (tables : List (String × List (String × Phenotype))) (gene diplotype : String),
      (tables.lookup gene = Option.none ∨
        ∃ tbl, tables.lookup gene = Option.some tbl ∧
          tbl.lookup (trimWS diplotype) = Option.none) →
      (resolve tables gene diplotype).phenotype = Phenotype.Unknown ∧
      (resolve tables gene diplotype).gene = gene ∧
      (resolve tables gene diplotype).diplotype = diplotype := by
  intro tables gene diplotype h
  rcases h with h | ⟨tbl, h₁, h₂⟩
  · simp [resolve, h]
  · simp [resolve, h₁, h₂]

/-- Witness for C5: the example table snapshot has a CYP2C9 table, but the
diplotype `*1/*99` (with stray whitespace) is not one of its keys. -/
theorem resolve_miss_unknown_witness :
    (resolve tablesExample "CYP2C9" " *1/*99 ").phenotype = Phenotype.Unknown ∧
    (resolve tablesExample "CYP2C9" " *1/*99 ").gene = "CYP2C9" ∧
    (resolve tablesExample "CYP2C9" " *1/*99 ").diplotype = " *1/*99 " :=
  resolve_miss_unknown tablesExample "CYP2C9" " *1/*99 "
    (Or.inr ⟨[("*1/*1", .NormalMetabolizer), ("*1/*2", .IntermediateMetabolizer)],
      by decide, by decide⟩)

/-- C6: the controller returns one output per requested drug, in order; each
entry is determined by its own drug alone, with a failing drug contributing
exactly the fallback entry (risk `Unknown`, `vcf_parsing_success = false`)
without touching the other entries. -/
theorem run_batch_isolation :
    ∀ (step : String → Except String PerDrugOutput) (drugs : List String),
      (RiskEngine.run step drugs).length = drugs.length ∧
      (∀ (i : ℕ) (h₁ : i < (RiskEngine.run step drugs).length) (h₂ : i < drugs.length),
        (RiskEngine.run step drugs).get ⟨i, h₁⟩ =
          match step (drugs.get ⟨i, h₂⟩) with
          | Except.ok out => out
          | Except.error _ => fallbackOutput (drugs.get ⟨i, h₂⟩)) ∧
      (∀ d : String,
        (fallbackOutput d).drug = d ∧
        (fallbackOutput d).verdict.label = RiskLabel.Unknown ∧
        (fallbackOutput d).vcf_parsing_success = false) := by
  intro step drugs
  refine ⟨by simp [RiskEngine.run], ?_, fun d => ⟨rfl, rfl, rfl⟩⟩
  intro i h₁ h₂
  simp [RiskEngine.run, List.getElem_map]

/-- Witness for C6: a two-drug batch whose second drug is unsupported keeps
length 2 and gets the fallback entry in the second slot. -/
theorem run_batch_isolation_witness :
    (RiskEngine.run stepExample ["warfarin", "xyz"]).length = 2 ∧
    (RiskEngine.run stepExample ["warfarin", "xyz"]).get ⟨1, by decide⟩ =
      fallbackOutput "xyz" := by
  have H := run_batch_isolation stepExample ["warfarin", "xyz"]
  exact ⟨H.1, (H.2.1 1 (by decide) (by decide)).trans rfl⟩

/-- C7: on all three provenance paths the orchestrator's summary is
non-empty (and, the summary being a total `String`, never null); when the
external generation capability fails — or returns an empty text — the
generic templated sentence is substituted; and the provenance tag reflects
the path that actually ran. -/
theorem enrich_summary_nonempty :
    (∀ (url : Option String) (fetch : String → Option String) (llm : Option String),
      0 < (enrich url fetch llm).summary.length) ∧
    (∀ (fetch : String → Option String) (llm : Option String),
      (enrich Option.none fetch llm).source = Provenance.llm_fallback_no_url) ∧
    (∀ (u : String) (fetch : String → Option String) (llm : Option String),
      fetch u = Option.none →
      (enrich (Option.some u) fetch llm).source = Provenance.llm_fallback_scrape_failed) ∧
    (∀ (u : String) (fetch : String → Option String) (llm : Option String) (note : String),
      fetch u = Option.some note →
      (enrich (Option.some u) fetch llm).source = Provenance.scraped) ∧
    (∀ (url : Option String) (fetch : String → Option String),
      (enrich url fetch Option.none).summary = genericTemplate ∧
      (enrich url fetch (Option.some "")).summary = genericTemplate) := by
  have hsum : ∀ llm : Option String, 0 < (generatedSummary llm).length := by
    intro llm
    cases llm with
    | none => decide
    | some s =>
      simp only [generatedSummary]
      split_ifs with h
      · decide
      · obtain ⟨l⟩ := s
        cases l with
        | nil => exact absurd rfl h
        | cons c cs => simp [String.length]
  have hpath : ∀ (url : Option String) (fetch : String → Option String) (llm : Option String),
      (enrich url fetch llm).summary = generatedSummary llm := by
    intro url fetch llm
    cases url with
    | none => rfl
    | some u =>
      simp only [enrich]
      cases fetch u <;> rfl
  refine ⟨?_, fun _ _ => rfl, ?_, ?_, ?_⟩
  · intro url fetch llm
    rw [hpath]
    exact hsum llm
  · intro u fetch llm h
    simp [enrich, h]
  · intro u fetch llm note h
    simp [enrich, h]
  · intro url fetch
    rw [hpath, hpath]
    exact ⟨rfl, rfl⟩

/-- Witness for C7: with a failing live source and a failing generation
capability, the scrape-failed path still carries the generic template. -/
theorem enrich_summary_nonempty_witness :
    (enrich (Option.some "https://cpicpgx.org/guidelines/") fetchFailing
        Option.none).source = Provenance.llm_fallback_scrape_failed ∧
    (enrich (Option.some "https://cpicpgx.org/guidelines/") fetchFixed
        Option.none).source = Provenance.scraped ∧
    0 < (enrich (Option.some "https://cpicpgx.org/guidelines/") fetchFailing
        Option.none).summary.length :=
  ⟨enrich_summary_nonempty.2.2.1 "https://cpicpgx.org/guidelines/" fetchFailing
      Option.none rfl,
    enrich_summary_nonempty.2.2.2.1 "https://cpicpgx.org/guidelines/" fetchFixed
      Option.none "No significant updates since last publication." rfl,
    enrich_summary_nonempty.1 (Option.some "https://cpicpgx.org/guidelines/")
      fetchFailing Option.none⟩

/-- C8: `riskLabelToTier` is total over the optional risk label and sends
"toxic"/"ineffective" (case-insensitively) to `avoid`,
"adjust dosage"/"unknown" to `caution`, and every other value — "Safe", any
unrecognized string, and a missing label — to `routine`; consequently the
three summary cards partition the drugs of the API results. -/
theorem riskLabelToTier_total_partition :
    (∀ label : Option String,
      (riskLabelToTier label = Tier.avoid ↔
        (jsToLower (label.getD "") = "toxic" ∨
          jsToLower (label.getD "") = "ineffective")) ∧
      (riskLabelToTier label = Tier.caution ↔
        (jsToLower (label.getD "") = "adjust dosage" ∨
          jsToLower (label.getD "") = "unknown"))) ∧
    (∀ label : Option String,
      ¬(jsToLower (label.getD "") = "toxic" ∨
          jsToLower (label.getD "") = "ineffective") →
      ¬(jsToLower (label.getD "") = "adjust dosage" ∨
          jsToLower (label.getD "") = "unknown") →
      riskLabelToTier label = Tier.routine) ∧
    riskLabelToTier Option.none = Tier.routine ∧
    riskLabelToTier (Option.some "Safe") = Tier.routine ∧
    (∀ results : List (String × Option String),
      (tierDrugs results Tier.avoid).length + (tierDrugs results Tier.caution).length +
        (tierDrugs results Tier.routine).length = results.length) := by
  refine ⟨?_, ?_, rfl, rfl, ?_⟩
  · intro label
    simp only [riskLabelToTier]
    split_ifs with h₁ h₂
    · have hne : ¬(jsToLower (label.getD "") = "adjust dosage" ∨
          jsToLower (label.getD "") = "unknown") := by
        rcases h₁ with h | h <;> rw [h] <;> decide
      exact ⟨by simp [h₁], by simp [hne]⟩
    · exact ⟨by simp [h₁], by simp [h₂]⟩
    · exact ⟨by simp [h₁], by simp [h₂]⟩
  · intro label h₁ h₂
    simp [riskLabelToTier, h₁, h₂]
  · intro results
    induction results with
    | nil => rfl
    | cons x xs ih =>
      rcases hx : riskLabelToTier x.2 <;>
        simp [tierDrugs, List.filter_cons, hx] at ih ⊢ <;> omega

/-- Witness for C8: an unrecognized label string goes to the routine card. -/
theorem riskLabelToTier_total_partition_witness :
    riskLabelToTier (Option.some "Borderline") = Tier.routine :=
  riskLabelToTier_total_partition.2.1 (Option.some "Borderline")
    (by decide) (by decide)

/-- The classifier's metabolism case analysis over abstract conditions: the
source's five sequential branches coincide with the claim's three merged
cases, given that a phenotype containing "ultrarapid" also contains
"rapid". -/
theorem metabolism_cases_eq {pPoor pPm pInt pIm pRapid pRm pUltra pUrm pUnk pInd pEmp : Prop}
    [Decidable pPoor] [Decidable pPm] [Decidable pInt] [Decidable pIm]
    [Decidable pRapid] [Decidable pRm] [Decidable pUltra] [Decidable pUrm]
    [Decidable pUnk] [Decidable pInd] [Decidable pEmp]
    (hUR : pUltra → pRapid) :
    (if pPoor ∨ pPm then Indicator.decreased
     else if pInt ∨ pIm then Indicator.decreased
     else if pRapid ∨ pRm then Indicator.increased
     else if pUltra ∨ pUrm then Indicator.increased
     else if pUnk ∨ pInd ∨ pEmp then Indicator.na
     else Indicator.normal) =
    (if pPoor ∨ pInt ∨ pPm ∨ pIm then Indicator.decreased
     else if pRapid ∨ pRm ∨ pUrm then Indicator.increased
     else if pUnk ∨ pInd ∨ pEmp then Indicator.na
     else Indicator.normal) := by
  split_ifs <;> tauto

/-- C9: `derivePrediction` computes exactly the four-axis mapping described
by the claim — toxicity increased iff the label is "toxic", dosage decreased
iff "adjust dosage", efficacy decreased iff "ineffective", and metabolism by
the ordered phenotype cases (poor/intermediate/pm/im decreased;
rapid/rm/urm increased; unknown/indeterminate/empty n/a; otherwise
normal). -/
theorem derivePrediction_matches_spec :
    ∀ r : ApiResult, derivePrediction r = derivePredictionSpec r := by
  intro r
  have hUR : jsIncludes (jsToLower (r.phenotype.getD "")) "ultrarapid" = true →
      jsIncludes (jsToLower (r.phenotype.getD "")) "rapid" = true :=
    jsIncludes_mono _ (by decide)
  simp only [derivePrediction, derivePredictionSpec, Prediction.mk.injEq]
  refine ⟨trivial, trivial, trivial, ?_⟩
  exact metabolism_cases_eq hUR

/-- C10: the upload handler accepts a file exactly when its name ends in
".vcf" (case-insensitively) and its first characters start with
"##fileformat=VCF"; a violation of either condition reports an error and the
file is not accepted; a file over 50 MB gets a warning but is still accepted
when both conditions hold. -/
theorem fileUpload_validation :
    ∀ f : UploadFile,
      ((handleFile f).2.isSome = (extensionOk f && headerOk f)) ∧
      (extensionOk f = false →
        (handleFile f).1 = [extErrorMsg] ∧ (handleFile f).2 = Option.none) ∧
      (extensionOk f = true → headerOk f = false →
        headerErrorMsg ∈ (handleFile f).1 ∧ (handleFile f).2 = Option.none) ∧
      (50 * 1024 * 1024 < f.size → extensionOk f = true → headerOk f = true →
        sizeWarnMsg ∈ (handleFile f).1 ∧ (handleFile f).2.isSome = true) := by
  intro f
  cases hext : extensionOk f <;> cases hhd : headerOk f <;>
    by_cases hsz : 50 * 1024 * 1024 < f.size <;>
      simp [handleFile, validateVCF, hext, hhd, hsz]

/-- Witness for C10: a valid-looking VCF just over 50 MB is warned about yet
accepted; a `.txt` upload is rejected with the extension error; a `.vcf`
upload without the VCF header is rejected with the header error. -/
theorem fileUpload_validation_witness :
    (sizeWarnMsg ∈ (handleFile sampleBigVCF).1 ∧
      (handleFile sampleBigVCF).2.isSome = true) ∧
    ((handleFile sampleTxtFile).1 = [extErrorMsg] ∧
      (handleFile sampleTxtFile).2 = Option.none) ∧
    (headerErrorMsg ∈ (handleFile sampleBadHeader).1 ∧
      (handleFile sampleBadHeader).2 = Option.none) :=
  ⟨(fileUpload_validation sampleBigVCF).2.2.2 (by decide) (by decide) (by decide),
    (fileUpload_validation sampleTxtFile).2.1 (by decide),
    (fileUpload_validation sampleBadHeader).2.2.1 (by decide) (by decide)⟩
